import Mathlib

/-
  Verification of the CPU-independent button driver.

  Shallow embedding of src/button_module/button.c (canonical implementation)
  and of the reference tick source helpers from the ESP32 application file.

  Modelling conventions:
  - C uint32_t values are Nat; where a uint32 multiplication can overflow we
    reduce the product with u32 (reduction modulo 2^32).  The uint8 press
    counter increments modulo 256.
  - fp_get_current_tick is modelled as a call-indexed stream ts : Nat -> Nat
    together with an explicit call counter n threaded through the code: the
    k-th call of the tick source inside one entry point returns ts (n + k).
    This mirrors the C code, where the TICK_DIFF macro expands to a fresh
    fp_get_current_tick() call every time it is used.
  - fp_read_button is modelled by a per-call valuation reads : Nat -> Int
    giving the level sampled for each configured line index, plus a presence
    flag in the configuration (a NULL pointer has no behaviour to model).
  - A function pointer that may be NULL is modelled as an Option (for
    fp_tick_elapsed, whose behaviour is a pure function) or as a presence
    flag (for the world-dependent capabilities).  Invoking a NULL capability
    is undefined behaviour in C; the model returns none in that case, so a
    some result certifies that no NULL capability was invoked on the
    executed path.
  - The event callback is modelled by accumulating the dispatched events in
    a list, in dispatch order.
-/

namespace ButtonDriver

/-- Number of representable uint32 values, 2^32. -/
def U32MOD : Nat := 4294967296

/-- Largest uint32 value, UINT32_MAX in the C sources. -/
def UINT32_MAX : Nat := 4294967295

/-- Reduction of a Nat modulo 2^32, used where the C code multiplies two
uint32 values. -/
def u32 (n : Nat) : Nat := n % U32MOD

/-- The tick_elapsed helper from the ESP32 application file: duration is
end minus start when end is greater, otherwise (UINT32_MAX - start) + end. -/
def tick_elapsed (start : Nat) (e : Nat) : Nat :=
  if e > start then e - start else (UINT32_MAX - start) + e

/-- DETECT_SINGLE_BUTTON_PRESS_IN_US from button.c, the multi-click window
in microseconds. -/
def DETECT_SINGLE_BUTTON_PRESS_IN_US : Nat := 500000

/-- button_pressed_types_t from button.h. -/
inductive ButtonPressedType where
  | normalPress
  | longPress
  | doublePress
deriving DecidableEq, Repr

/-- The log of events handed to fp_event_callback: pairs of event type and
button index, in dispatch order. -/
abbrev ButtonEventLog := List (ButtonPressedType × Nat)

/-- pin_config_t from button.h (the p_reg field is never read by the driver
and is omitted).  interrupt_mode values: 0 none, 1 rising, 2 falling,
3 both edges. -/
structure PinConfig where
  pin : Nat
  interrupt_mode : Nat
deriving DecidableEq, Repr

/-- button_api_t from button.h.  Capability function pointers that the
driver may find NULL are modelled as described in the header comment. -/
structure ButtonApi where
  button_pins : List PinConfig
  size_of_buttons : Nat
  active_high : Nat
  tick_count_in_1us : Nat
  debounce_us : Nat
  long_press_us : Nat
  fp_tick_elapsed : Option (Nat → Nat → Nat)
  fp_read_button_present : Bool
  fp_get_current_tick_present : Bool
  fp_event_callback_present : Bool

/-- detection_pressed_tick_t from button.c: the two timestamps bounding a
press cycle; 0 means unset. -/
structure CaptureLine where
  first : Nat
  last : Nat
deriving DecidableEq, Repr

/-- Result of one detect_the_press call: the updated capture line, the
updated press counter, the events dispatched during the call, the returned
last_count_tick, and the tick-source call counter after the call. -/
structure DetectResult where
  line : CaptureLine
  count : Nat
  events : ButtonEventLog
  last_count_tick : Nat
  calls : Nat
deriving DecidableEq, Repr

/-- detect_the_press from button.c.  ts is the tick-source stream, n the
tick-source call counter on entry. -/
def detect_the_press (api : ButtonApi) (ts : Nat → Nat) (index : Nat)
    (cl : CaptureLine) (count : Nat) (n : Nat) : Option DetectResult :=
  if cl.first ≠ 0 ∧ cl.last ≠ 0 then
    match api.fp_tick_elapsed, api.fp_get_current_tick_present with
    | some el, true =>
      if el cl.last (ts n) > u32 (api.debounce_us * api.tick_count_in_1us) then
        if el cl.first cl.last > u32 (api.long_press_us * api.tick_count_in_1us) then
          if api.fp_event_callback_present = true then
            some ⟨⟨0, 0⟩, count, [(ButtonPressedType.longPress, index)], 0, n + 1⟩
          else none
        else
          if el cl.last (ts (n + 1)) < u32 (DETECT_SINGLE_BUTTON_PRESS_IN_US * api.tick_count_in_1us) then
            some ⟨⟨0, 0⟩, (count + 1) % 256, [], ts (n + 2), n + 3⟩
          else
            some ⟨cl, count, [], 0, n + 2⟩
      else
        some ⟨cl, count, [], 0, n + 1⟩
    | _, _ => none
  else
    some ⟨cl, count, [], 0, n⟩

/-- Result of one desicion_by_pressed_count call: updated capture line,
press counter and record_last_tick entry, the events dispatched, and the
tick-source call counter after the call. -/
structure DecisionResult where
  line : CaptureLine
  count : Nat
  record : Nat
  events : ButtonEventLog
  calls : Nat
deriving DecidableEq, Repr

/-- The commit half of desicion_by_pressed_count: record1 is the value of
record_last_tick for this line after the conditional store of the tick
returned by detect_the_press.  When the window has elapsed the record is
cleared, the count-1 and count-2 cases each dispatch their event through
the callback, any other nonzero count dispatches nothing, and the counter
is cleared. -/
def desicion_commit (api : ButtonApi) (ts : Nat → Nat) (index : Nat)
    (d : DetectResult) (record1 : Nat) : Option DecisionResult :=
  if record1 ≠ 0 ∧ d.count > 0 then
    match api.fp_tick_elapsed, api.fp_get_current_tick_present with
    | some el, true =>
      if el record1 (ts d.calls) > u32 (DETECT_SINGLE_BUTTON_PRESS_IN_US * api.tick_count_in_1us) then
        if d.count = 1 then
          if api.fp_event_callback_present = true then
            some ⟨d.line, 0, 0, d.events ++ [(ButtonPressedType.normalPress, index)], d.calls + 1⟩
          else none
        else if d.count = 2 then
          if api.fp_event_callback_present = true then
            some ⟨d.line, 0, 0, d.events ++ [(ButtonPressedType.doublePress, index)], d.calls + 1⟩
          else none
        else
          some ⟨d.line, 0, 0, d.events, d.calls + 1⟩
      else
        some ⟨d.line, d.count, record1, d.events, d.calls + 1⟩
    | _, _ => none
  else
    some ⟨d.line, d.count, record1, d.events, d.calls⟩

/-- desicion_by_pressed_count from button.c (source spelling kept).
record is the record_last_tick entry for this line on entry; a nonzero
tick returned by detect_the_press overwrites it before the commit check. -/
def desicion_by_pressed_count (api : ButtonApi) (ts : Nat → Nat) (index : Nat)
    (cl : CaptureLine) (count : Nat) (record : Nat) (n : Nat) : Option DecisionResult :=
  (detect_the_press api ts index cl count n).bind (fun d =>
    desicion_commit api ts index d (if d.last_count_tick ≠ 0 then d.last_count_tick else record))

/-- The static state of the driver module in button.c: the stored API
pointer, the init status flag (true models SUCCESS), and the three static
per-line arrays (pressed_tick in file scope, press_count and
record_last_tick static inside desicion_by_pressed_count). -/
structure DriverState where
  p_api : Option ButtonApi
  button_init_status : Bool
  pressed_tick : List CaptureLine
  press_count : List Nat
  record_last_tick : List Nat

/-- The state of the module before any call: NULL api pointer, FAIL status,
all BUTTON_MAX = 5 per-line entries zero. -/
def initialState : DriverState :=
  ⟨none, false, List.replicate 5 ⟨0, 0⟩, List.replicate 5 0, List.replicate 5 0⟩

/-- button_initialize from button.c.  The C code sets the status flag to
FAIL first, unconditionally, and only a fully validated configuration
restores SUCCESS; the net effect is that every failing call clears the
flag and changes nothing else.  Returns the new state and the C return
value (0 success, -1 fail). -/
def button_initialize (p : Option ButtonApi) (s : DriverState) : DriverState × Int :=
  match p with
  | some api =>
    if api.size_of_buttons > 0 ∧ api.fp_get_current_tick_present = true
        ∧ api.fp_event_callback_present = true then
      ({ s with p_api := some api, button_init_status := true }, 0)
    else ({ s with button_init_status := false }, -1)
  | none => ({ s with button_init_status := false }, -1)

/-- find_pin_id from button.c: index of the first configured entry whose
pin matches, or -1. -/
def find_pin_id (api : ButtonApi) (pin : Nat) : Int :=
  match (List.range api.size_of_buttons).find? (fun i => (api.button_pins.getD i ⟨0, 0⟩).pin == pin) with
  | some i => (i : Nat)
  | none => -1

/-- The switch statement of button_isr on the interrupt mode of the
triggering pin, for the located line index i.  Rising writes last when
last is unset, Falling writes first when first is unset, Both writes
first and then last, any other mode writes nothing. -/
def isr_capture (pin : PinConfig) (t : Nat) (api : ButtonApi) (s : DriverState)
    (i : Nat) : Option DriverState :=
  if pin.interrupt_mode = 1 then
    if (s.pressed_tick.getD i ⟨0, 0⟩).last = 0 then
      if api.fp_get_current_tick_present = true then
        some { s with pressed_tick :=
          s.pressed_tick.set i ⟨(s.pressed_tick.getD i ⟨0, 0⟩).first, t⟩ }
      else none
    else some s
  else if pin.interrupt_mode = 2 then
    if (s.pressed_tick.getD i ⟨0, 0⟩).first = 0 then
      if api.fp_get_current_tick_present = true then
        some { s with pressed_tick :=
          s.pressed_tick.set i ⟨t, (s.pressed_tick.getD i ⟨0, 0⟩).last⟩ }
      else none
    else some s
  else if pin.interrupt_mode = 3 then
    if (s.pressed_tick.getD i ⟨0, 0⟩).first = 0 then
      if api.fp_get_current_tick_present = true then
        some { s with pressed_tick :=
          s.pressed_tick.set i ⟨t, (s.pressed_tick.getD i ⟨0, 0⟩).last⟩ }
      else none
    else
      if api.fp_get_current_tick_present = true then
        some { s with pressed_tick :=
          s.pressed_tick.set i ⟨(s.pressed_tick.getD i ⟨0, 0⟩).first, t⟩ }
      else none
  else some s

/-- button_isr from button.c.  p is the interrupt argument (none models a
NULL pointer), t the value the tick source would return during this
interrupt. -/
def button_isr (p : Option PinConfig) (t : Nat) (s : DriverState) : Option DriverState :=
  match p with
  | none => some s
  | some pin =>
    if pin.interrupt_mode > 0 ∧ s.button_init_status = true then
      match s.p_api with
      | none => none
      | some api =>
        if find_pin_id api pin.pin = -1 then some s
        else isr_capture pin t api s (find_pin_id api pin.pin).toNat
    else some s

/-- The pressed level computed by button_process for line i: the raw read
compared against 1 when active_high is nonzero, against 0 otherwise. -/
def pressed_level (api : ButtonApi) (reads : Nat → Int) (i : Nat) : Bool :=
  if api.active_high ≠ 0 then reads i == 1 else reads i == 0

/-- The switch statement of button_process on the configured interrupt
mode of line i: Rising records first on a pressed level, Falling records
last once first exists, Both is left to the interrupt path, any other
mode (polling) records first and then last on pressed levels. -/
def capture_step (api : ButtonApi) (ts : Nat → Nat) (i : Nat) (pressed : Bool)
    (cl : CaptureLine) (n : Nat) : Option (CaptureLine × Nat) :=
  if (api.button_pins.getD i ⟨0, 0⟩).interrupt_mode = 1 then
    if pressed = true ∧ cl.first = 0 then
      if api.fp_get_current_tick_present = true then some (⟨ts n, cl.last⟩, n + 1) else none
    else some (cl, n)
  else if (api.button_pins.getD i ⟨0, 0⟩).interrupt_mode = 2 then
    if pressed = true ∧ cl.first ≠ 0 then
      if api.fp_get_current_tick_present = true then some (⟨cl.first, ts n⟩, n + 1) else none
    else some (cl, n)
  else if (api.button_pins.getD i ⟨0, 0⟩).interrupt_mode = 3 then
    some (cl, n)
  else
    if pressed = true then
      if api.fp_get_current_tick_present = true then
        if cl.first = 0 then some (⟨ts n, cl.last⟩, n + 1)
        else some (⟨cl.first, ts n⟩, n + 1)
      else none
    else some (cl, n)

/-- The body of the button_process loop for one line index i: read the
level, apply the active_high polarity, update the timestamps per the
configured interrupt mode, then run desicion_by_pressed_count. -/
def process_line (api : ButtonApi) (ts : Nat → Nat) (reads : Nat → Int) (i : Nat)
    (cl : CaptureLine) (count : Nat) (record : Nat) (n : Nat) : Option DecisionResult :=
  if api.fp_read_button_present = true then
    (capture_step api ts i (pressed_level api reads i) cl n).bind
      (fun p => desicion_by_pressed_count api ts i p.1 count record p.2)
  else none

/-- The button_process loop over the configured lines, from index i with
the given number of remaining iterations, threading the per-line arrays,
the tick-source call counter and the event log. -/
def process_loop (api : ButtonApi) (ts : Nat → Nat) (reads : Nat → Int) :
    Nat → Nat → List CaptureLine → List Nat → List Nat → Nat → ButtonEventLog →
    Option (List CaptureLine × List Nat × List Nat × Nat × ButtonEventLog)
  | _, 0, pt, pc, rec, n, evs => some (pt, pc, rec, n, evs)
  | i, fuel + 1, pt, pc, rec, n, evs =>
    match process_line api ts reads i (pt.getD i ⟨0, 0⟩) (pc.getD i 0) (rec.getD i 0) n with
    | none => none
    | some r =>
      process_loop api ts reads (i + 1) fuel (pt.set i r.line) (pc.set i r.count)
        (rec.set i r.record) r.calls (evs ++ r.events)

/-- button_process from button.c.  ts and reads model the values the tick
source and the pin reader return during this call. -/
def button_process (ts : Nat → Nat) (reads : Nat → Int) (s : DriverState) :
    Option (DriverState × ButtonEventLog) :=
  if s.button_init_status = true then
    match s.p_api with
    | none => none
    | some api =>
      match process_loop api ts reads 0 api.size_of_buttons s.pressed_tick s.press_count
          s.record_last_tick 0 [] with
      | none => none
      | some (pt, pc, rec, _, evs) =>
        some ({ s with pressed_tick := pt, press_count := pc, record_last_tick := rec }, evs)
  else some (s, [])

/-- An externally driven entry-point invocation: an interrupt with its
argument and tick sample, or one polling pass with its tick stream and
read levels. -/
inductive DriverOp where
  | isr (p : Option PinConfig) (t : Nat)
  | process (ts : Nat → Nat) (reads : Nat → Int)

/-- One entry-point invocation on the driver state, with the events it
dispatches. -/
def step (s : DriverState) : DriverOp → Option (DriverState × ButtonEventLog)
  | DriverOp.isr p t => (button_isr p t s).map (fun s1 => (s1, []))
  | DriverOp.process ts reads => button_process ts reads s

/-- Running a sequence of entry-point invocations, accumulating all
dispatched events. -/
def run (s : DriverState) : List DriverOp → Option (DriverState × ButtonEventLog)
  | [] => some (s, [])
  | op :: ops =>
    match step s op with
    | none => none
    | some (s1, evs) => (run s1 ops).map (fun r => (r.1, evs ++ r.2))

/-- A line invariant: the last timestamp is set only once the first is. -/
def LineInv (cl : CaptureLine) : Prop := cl.last ≠ 0 → cl.first ≠ 0

/-- The per-line invariant over the whole pressed_tick array. -/
def StateInv (s : DriverState) : Prop := ∀ i, LineInv (s.pressed_tick.getD i ⟨0, 0⟩)

/-- A well-formed configuration used by several concrete scenarios: one
poll-mode line on pin 7, active high, one tick per microsecond, 10 ms
debounce, 1 s long-press threshold, all capabilities supplied, with the
reference tick_elapsed as the elapsed capability. -/
def apiA : ButtonApi :=
  ⟨[⟨7, 0⟩], 1, 1, 1, 10000, 1000000, some tick_elapsed, true, true, true⟩

/-- Same configuration with the single line in rising-edge interrupt mode
on pin 3. -/
def apiR : ButtonApi :=
  ⟨[⟨3, 1⟩], 1, 1, 1, 10000, 1000000, some tick_elapsed, true, true, true⟩

/-- Driver state right after a successful initialization with apiA. -/
def pollS1 : DriverState := ( button_initialize (some apiA) initialState).1

/-- State after one polling pass at tick 1000 with the line pressed: the
first timestamp is captured. -/
def pollS2 : DriverState :=
  ((button_process (fun _ => 1000) (fun _ => 1) pollS1).getD (initialState, [])).1

/-- State after a second polling pass at tick 1001 with the line still
pressed: the last timestamp is captured, bounding a 1-tick cycle. -/
def pollS3 : DriverState :=
  ((button_process (fun _ => 1001) (fun _ => 1) pollS2).getD (initialState, [])).1

/-- Driver state right after a successful initialization with apiR. -/
def risingS : DriverState := ( button_initialize (some apiR) initialState).1

/-- A configuration whose fp_tick_elapsed pointer is NULL while every other
capability is supplied. -/
def apiE : ButtonApi :=
  ⟨[⟨2, 0⟩], 1, 1, 1, 10000, 1000000, none, true, true, true⟩

/-- Driver state right after a successful initialization with apiE. -/
def elapsedNullS : DriverState := ( button_initialize (some apiE) initialState).1

/-- A configuration whose fp_tick_elapsed and fp_read_button pointers are
both NULL while the two validated capabilities are supplied. -/
def apiBothNull : ButtonApi :=
  ⟨[⟨2, 0⟩], 1, 1, 1, 10000, 1000000, none, false, true, true⟩

/-- Driver state right after a successful initialization with apiBothNull. -/
def bothNullS : DriverState := ( button_initialize (some apiBothNull) initialState).1

/-- A tick stream that returns 0 exactly on its third call (call index 2)
and tick 400000 on every other call. -/
def tsZ : Nat → Nat := fun k => if k = 2 then 0 else 400000

/-- Unfolding of detect_the_press once the two capabilities it samples are
known to be supplied. -/
theorem detect_the_press_eq (api : ButtonApi) (ts : Nat → Nat) (index : Nat)
    (cl : CaptureLine) (count : Nat) (n : Nat) (el : Nat → Nat → Nat)
    (hel : api.fp_tick_elapsed = some el)
    (hget : api.fp_get_current_tick_present = true) :
    detect_the_press api ts index cl count n =
      if cl.first ≠ 0 ∧ cl.last ≠ 0 then
        if el cl.last (ts n) > u32 (api.debounce_us * api.tick_count_in_1us) then
          if el cl.first cl.last > u32 (api.long_press_us * api.tick_count_in_1us) then
            if api.fp_event_callback_present = true then
              some ⟨⟨0, 0⟩, count, [(ButtonPressedType.longPress, index)], 0, n + 1⟩
            else none
          else
            if el cl.last (ts (n + 1)) < u32 (DETECT_SINGLE_BUTTON_PRESS_IN_US * api.tick_count_in_1us) then
              some ⟨⟨0, 0⟩, (count + 1) % 256, [], ts (n + 2), n + 3⟩
            else
              some ⟨cl, count, [], 0, n + 2⟩
        else
          some ⟨cl, count, [], 0, n + 1⟩
      else
        some ⟨cl, count, [], 0, n⟩ := by
  unfold detect_the_press
  rw [hel, hget]

/-- Claim C3: the implemented tick_elapsed contract does not equal the true
modular distance on the wrap branch.  On the input of the spec example,
start 0xFFFFFFF0 and end 0x00000010, the code returns 0x1F (31) while the
true modular distance (end - start) mod 2^32 is 0x20 (32): the wrap branch
adds UINT32_MAX instead of 2^32 and is one tick short. -/
theorem claim_C3_failing :
    tick_elapsed 4294967280 16 = 31 ∧ ((16 : Int) - 4294967280) % 4294967296 = 32 := by
  constructor
  · rfl
  · decide

/-- Claim C1: with both timestamps set and the debounce quiet-time check
passed, detect_the_press dispatches exactly one long-press event and
clears both timestamps when the bounded interval exceeds the long-press
threshold; otherwise it increments the press counter (modulo its uint8
width), clears both timestamps and returns the current tick when the
quiet time is inside the multi-click window; otherwise it changes
nothing. -/
theorem claim_C1 (api : ButtonApi) (ts : Nat → Nat) (index : Nat)
    (cl : CaptureLine) (count : Nat) (n : Nat) (el : Nat → Nat → Nat)
    (hel : api.fp_tick_elapsed = some el)
    (hget : api.fp_get_current_tick_present = true)
    (hcb : api.fp_event_callback_present = true)
    (hf : cl.first ≠ 0) (hl : cl.last ≠ 0)
    (hdeb : el cl.last (ts n) > u32 (api.debounce_us * api.tick_count_in_1us)) :
    (el cl.first cl.last > u32 (api.long_press_us * api.tick_count_in_1us) →
      detect_the_press api ts index cl count n =
        some ⟨⟨0, 0⟩, count, [(ButtonPressedType.longPress, index)], 0, n + 1⟩)
    ∧ (¬ el cl.first cl.last > u32 (api.long_press_us * api.tick_count_in_1us) →
        el cl.last (ts (n + 1)) < u32 (DETECT_SINGLE_BUTTON_PRESS_IN_US * api.tick_count_in_1us) →
        detect_the_press api ts index cl count n =
          some ⟨⟨0, 0⟩, (count + 1) % 256, [], ts (n + 2), n + 3⟩)
    ∧ (¬ el cl.first cl.last > u32 (api.long_press_us * api.tick_count_in_1us) →
        ¬ el cl.last (ts (n + 1)) < u32 (DETECT_SINGLE_BUTTON_PRESS_IN_US * api.tick_count_in_1us) →
        detect_the_press api ts index cl count n = some ⟨cl, count, [], 0, n + 2⟩) := by
  rw [detect_the_press_eq api ts index cl count n el hel hget]
  rw [if_pos (And.intro hf hl), if_pos hdeb]
  refine ⟨?_, ?_, ?_⟩
  · intro hlong
    rw [if_pos hlong, if_pos hcb]
  · intro hlong hwin
    rw [if_neg hlong, if_pos hwin]
  · intro hlong hwin
    rw [if_neg hlong, if_neg hwin]

/-- Witness for claim C1 at a concrete input: a press bounded by ticks
1000 and 2000, evaluated at tick 400000, is confirmed as one short
press. -/
theorem claim_C1_witness :
    detect_the_press apiA (fun _ => 400000) 0 ⟨1000, 2000⟩ 0 0 =
      some ⟨⟨0, 0⟩, 1, [], 400000, 3⟩ :=
  ((claim_C1 apiA (fun _ => 400000) 0 ⟨1000, 2000⟩ 0 0 tick_elapsed rfl rfl rfl
      (by decide) (by decide) (by decide)).2.1) (by decide) (by decide)

/-- Claim C2: once the quiet time after the recorded confirmation tick
exceeds the multi-click window and the counter is nonzero, the aggregator
commits: exactly one normal press for a count of one, exactly one double
press for a count of two, no event for three or more, and in every case
both the counter and the recorded tick are cleared.  The capture line is
quiescent (first unset), so detect_the_press contributes nothing. -/
theorem claim_C2 (api : ButtonApi) (ts : Nat → Nat) (index : Nat)
    (cl : CaptureLine) (count : Nat) (record : Nat) (n : Nat) (el : Nat → Nat → Nat)
    (hel : api.fp_tick_elapsed = some el)
    (hget : api.fp_get_current_tick_present = true)
    (hcb : api.fp_event_callback_present = true)
    (hfirst : cl.first = 0) (hrec : record ≠ 0) (hcount : count > 0)
    (hwin : el record (ts n) > u32 (DETECT_SINGLE_BUTTON_PRESS_IN_US * api.tick_count_in_1us)) :
    desicion_by_pressed_count api ts index cl count record n =
      some ⟨cl, 0, 0,
        (if count = 1 then [(ButtonPressedType.normalPress, index)]
         else if count = 2 then [(ButtonPressedType.doublePress, index)]
         else []), n + 1⟩ := by
  unfold desicion_by_pressed_count
  have hdet : detect_the_press api ts index cl count n = some ⟨cl, count, [], 0, n⟩ := by
    unfold detect_the_press
    rw [if_neg]
    intro h
    exact h.1 hfirst
  rw [hdet]
  by_cases hc1 : count = 1
  · simp [desicion_commit, hel, hget, hrec, hcount, hwin, hcb, hc1]
  · by_cases hc2 : count = 2
    · simp [desicion_commit, hel, hget, hrec, hcount, hwin, hcb, hc1, hc2]
    · simp [desicion_commit, hel, hget, hrec, hcount, hwin, hcb, hc1, hc2]

/-- Witness for claim C2 at a concrete input: a recorded confirmation at
tick 12002, evaluated at tick 600000 with two counted presses, commits
exactly one double press. -/
theorem claim_C2_witness :
    desicion_by_pressed_count apiA (fun _ => 600000) 0 ⟨0, 0⟩ 2 12002 0 =
      some ⟨⟨0, 0⟩, 0, 0, [(ButtonPressedType.doublePress, 0)], 1⟩ := by
  have h := claim_C2 apiA (fun _ => 600000) 0 ⟨0, 0⟩ 2 12002 0 tick_elapsed rfl rfl rfl
    rfl (by decide) (by decide) (by decide)
  simpa using h

/-- Claim C4 (amended): while the quiet time since the last recorded edge,
elapsed(last, now), does not exceed the debounce threshold in ticks,
detect_the_press changes nothing and dispatches nothing.  The bounded
interval elapsed(first, last) is never compared with the debounce
threshold, so a cycle whose bounded interval is below the threshold can
still produce events once the line goes quiet (see the counterexample). -/
theorem claim_C4 (api : ButtonApi) (ts : Nat → Nat) (index : Nat)
    (cl : CaptureLine) (count : Nat) (n : Nat) (el : Nat → Nat → Nat)
    (hel : api.fp_tick_elapsed = some el)
    (hget : api.fp_get_current_tick_present = true)
    (hf : cl.first ≠ 0) (hl : cl.last ≠ 0)
    (hdeb : ¬ el cl.last (ts n) > u32 (api.debounce_us * api.tick_count_in_1us)) :
    detect_the_press api ts index cl count n = some ⟨cl, count, [], 0, n + 1⟩ := by
  rw [detect_the_press_eq api ts index cl count n el hel hget]
  rw [if_pos (And.intro hf hl), if_neg hdeb]

/-- Witness for claim C4 at a concrete input: a cycle bounded by ticks
1000 and 2000, evaluated at tick 2500, is left untouched because only 500
ticks of quiet time have passed. -/
theorem claim_C4_witness :
    detect_the_press apiA (fun _ => 2500) 0 ⟨1000, 2000⟩ 0 0 =
      some ⟨⟨1000, 2000⟩, 0, [], 0, 1⟩ :=
  claim_C4 apiA (fun _ => 2500) 0 ⟨1000, 2000⟩ 0 0 tick_elapsed rfl rfl
    (by decide) (by decide) (by decide)

/-- Counterexample to claim C4 as stated: with a debounce threshold of
10000 ticks, a capture cycle whose bounded interval is a single tick
(first 1000, last 1001, elapsed 1 < 10000) still yields a normal-press
event from a later button_process call, because the code never compares
elapsed(first, last) with the debounce threshold. -/
theorem claim_C4_cex :
    pollS3.pressed_tick.getD 0 ⟨0, 0⟩ = ⟨1000, 1001⟩ ∧
    tick_elapsed 1000 1001 = 1 ∧
    apiA.debounce_us * apiA.tick_count_in_1us = 10000 ∧
    (button_process (fun _ => 12002) (fun _ => 0) pollS3).map (fun r => r.2) =
      some [(ButtonPressedType.normalPress, 0)] := by
  refine ⟨by decide, rfl, rfl, by decide⟩

/-- Any entry-point invocation on a state whose init status is FAIL leaves
the state untouched and dispatches nothing. -/
theorem step_uninit (s : DriverState) (op : DriverOp)
    (h : s.button_init_status = false) : step s op = some (s, []) := by
  cases op with
  | isr p t =>
    cases p with
    | none => rfl
    | some pin => simp [step, button_isr, h]
  | process ts reads => simp [step, button_process, h]

/-- Claim C7: before any successful initialization (init status FAIL),
every sequence of button_isr and button_process invocations leaves the
driver state exactly as it was and dispatches no event. -/
theorem claim_C7 (s : DriverState) (ops : List DriverOp)
    (h : s.button_init_status = false) : run s ops = some (s, []) := by
  induction ops with
  | nil => rfl
  | cons op ops ih => simp [run, step_uninit s op h, ih]

/-- Witness for claim C7 at a concrete input: an interrupt and a polling
pass on the freshly loaded module change nothing and dispatch nothing. -/
theorem claim_C7_witness :
    run initialState
      [DriverOp.isr (some ⟨7, 1⟩) 5, DriverOp.process (fun _ => 3) (fun _ => 1)] =
      some (initialState, []) :=
  claim_C7 initialState _ rfl

/-- Claim C10: when the tick source returns 0 on the call that records a
short-press confirmation, detect_the_press still increments the counter
and clears both timestamps but returns 0; desicion_by_pressed_count then
leaves the recorded confirmation tick unset, and while it stays unset no
normal or double press is ever committed, whatever the counter holds. -/
theorem claim_C10 (api : ButtonApi) (ts : Nat → Nat) (index : Nat)
    (cl : CaptureLine) (count : Nat) (n : Nat) (el : Nat → Nat → Nat)
    (hel : api.fp_tick_elapsed = some el)
    (hget : api.fp_get_current_tick_present = true)
    (hf : cl.first ≠ 0) (hl : cl.last ≠ 0)
    (hdeb : el cl.last (ts n) > u32 (api.debounce_us * api.tick_count_in_1us))
    (hnl : ¬ el cl.first cl.last > u32 (api.long_press_us * api.tick_count_in_1us))
    (hwin : el cl.last (ts (n + 1)) < u32 (DETECT_SINGLE_BUTTON_PRESS_IN_US * api.tick_count_in_1us))
    (hzero : ts (n + 2) = 0) :
    detect_the_press api ts index cl count n =
      some ⟨⟨0, 0⟩, (count + 1) % 256, [], 0, n + 3⟩
    ∧ desicion_by_pressed_count api ts index cl count 0 n =
        some ⟨⟨0, 0⟩, (count + 1) % 256, 0, [], n + 3⟩
    ∧ (∀ ts1 : Nat → Nat, ∀ cl1 count1 n1, cl1.first = 0 →
        desicion_by_pressed_count api ts1 index cl1 count1 0 n1 =
          some ⟨cl1, count1, 0, [], n1⟩) := by
  have hd : detect_the_press api ts index cl count n =
      some ⟨⟨0, 0⟩, (count + 1) % 256, [], 0, n + 3⟩ := by
    rw [detect_the_press_eq api ts index cl count n el hel hget]
    rw [if_pos (And.intro hf hl), if_pos hdeb, if_neg hnl, if_pos hwin, hzero]
  refine ⟨hd, ?_, ?_⟩
  · unfold desicion_by_pressed_count
    rw [hd]
    simp [desicion_commit]
  · intro ts1 cl1 count1 n1 hfirst
    unfold desicion_by_pressed_count
    have hdet : detect_the_press api ts1 index cl1 count1 n1 =
        some ⟨cl1, count1, [], 0, n1⟩ := by
      unfold detect_the_press
      rw [if_neg]
      intro hcon
      exact hcon.1 hfirst
    rw [hdet]
    simp [desicion_commit]

/-- Witness for claim C10 at a concrete input: a press bounded by ticks
1000 and 2000 confirmed while the tick source reads 0 leaves the counter
at 1 with no recorded confirmation tick and no event. -/
theorem claim_C10_witness :
    detect_the_press apiA tsZ 0 ⟨1000, 2000⟩ 0 0 = some ⟨⟨0, 0⟩, 1, [], 0, 3⟩ ∧
    desicion_by_pressed_count apiA tsZ 0 ⟨1000, 2000⟩ 0 0 0 =
      some ⟨⟨0, 0⟩, 1, 0, [], 3⟩ := by
  have h := claim_C10 apiA tsZ 0 ⟨1000, 2000⟩ 0 0 tick_elapsed rfl rfl
    (by decide) (by decide) (by decide) (by decide) (by decide) rfl
  exact ⟨h.1, h.2.1⟩

/-- Claim C8 (amended): button_initialize returns success exactly when the
config pointer is non-null, the line set is non-empty and the tick-source
and event-callback capabilities are non-null; a failing call leaves the
stored API pointer and every per-line array untouched but unconditionally
clears the lifecycle flag to FAIL, so a failing call on an already Ready
driver does return it to Uninitialized (see the counterexample). -/
theorem claim_C8 :
    (∀ (p : Option ButtonApi) (s : DriverState),
      (( button_initialize p s).2 = 0 ↔
        ∃ api, p = some api ∧ api.size_of_buttons > 0 ∧
          api.fp_get_current_tick_present = true ∧ api.fp_event_callback_present = true))
    ∧ (∀ (p : Option ButtonApi) (s : DriverState),
        ( button_initialize p s).2 ≠ 0 →
        ( button_initialize p s).1 = { s with button_init_status := false }) := by
  constructor
  · intro p s
    cases p with
    | none =>
      constructor
      · intro h
        simp [ button_initialize] at h
      · rintro ⟨api, heq, -⟩
        cases heq
    | some api =>
      simp only [ button_initialize]
      by_cases hc : api.size_of_buttons > 0 ∧ api.fp_get_current_tick_present = true
          ∧ api.fp_event_callback_present = true
      · rw [if_pos hc]
        exact iff_of_true rfl ⟨api, rfl, hc.1, hc.2.1, hc.2.2⟩
      · rw [if_neg hc]
        constructor
        · intro h
          simp at h
        · rintro ⟨api1, heq, h1, h2, h3⟩
          cases heq
          exact absurd ⟨h1, h2, h3⟩ hc
  · intro p s h
    cases p with
    | none => rfl
    | some api =>
      simp only [ button_initialize] at h ⊢
      by_cases hc : api.size_of_buttons > 0 ∧ api.fp_get_current_tick_present = true
          ∧ api.fp_event_callback_present = true
      · rw [if_pos hc] at h
        exact absurd rfl h
      · rw [if_neg hc]

/-- Witness for claim C8 at concrete inputs: initializing with apiA
succeeds, and a failing call with a NULL pointer only clears the status
flag of the untouched initial state. -/
theorem claim_C8_witness :
    ( button_initialize (some apiA) initialState).2 = 0 ∧
    ( button_initialize none initialState).1 =
      { initialState with button_init_status := false } :=
  ⟨(claim_C8.1 (some apiA) initialState).2 ⟨apiA, rfl, by decide, rfl, rfl⟩,
   claim_C8.2 none initialState (by decide)⟩

/-- Counterexample to claim C8 as stated: after a successful
initialization the driver is Ready, yet a subsequent failing call (NULL
pointer) resets the status flag, a Ready to Uninitialized transition the
claim rules out. -/
theorem claim_C8_cex :
    ( button_initialize (some apiA) initialState).1.button_init_status = true ∧
    ( button_initialize none
        ( button_initialize (some apiA) initialState).1).1.button_init_status = false :=
  ⟨rfl, rfl⟩

/-- Claim C9 (amended): button_initialize never validates fp_tick_elapsed
or fp_read_button, and accepts a configuration in which both are NULL;
button_process then invokes fp_read_button unconditionally for every
configured line, so with fp_read_button NULL the first polling pass hits
a NULL call; fp_tick_elapsed however is only invoked when a line has
pending timestamps or a pending press record, not unconditionally (see
the counterexample). -/
theorem claim_C9 :
    (∀ (api : ButtonApi) (s : DriverState),
      api.size_of_buttons > 0 → api.fp_get_current_tick_present = true →
      api.fp_event_callback_present = true → api.fp_tick_elapsed = none →
      api.fp_read_button_present = false →
      ( button_initialize (some api) s).2 = 0 ∧
        ( button_initialize (some api) s).1.button_init_status = true)
    ∧ (∀ (ts : Nat → Nat) (reads : Nat → Int) (s : DriverState) (api : ButtonApi),
        s.button_init_status = true → s.p_api = some api →
        api.fp_read_button_present = false → 0 < api.size_of_buttons →
        button_process ts reads s = none) := by
  constructor
  · intro api s h1 h2 h3 _ _
    simp only [ button_initialize]
    rw [if_pos (And.intro h1 (And.intro h2 h3))]
    exact ⟨rfl, rfl⟩
  · intro ts reads s api hst hapi hread hsize
    unfold button_process
    obtain ⟨k, hk⟩ := Nat.exists_eq_succ_of_ne_zero (Nat.pos_iff_ne_zero.mp hsize)
    simp only [hst, hapi, if_pos]
    rw [hk]
    simp [process_loop, process_line, hread]

/-- Witness for claim C9 at concrete inputs: apiBothNull (both unvalidated
capabilities NULL) is accepted, and the very first polling pass after that
initialization reaches a NULL fp_read_button call. -/
theorem claim_C9_witness :
    (( button_initialize (some apiBothNull) initialState).2 = 0 ∧
      ( button_initialize (some apiBothNull) initialState).1.button_init_status = true) ∧
    button_process (fun _ => 5) (fun _ => 1) bothNullS = none :=
  ⟨claim_C9.1 apiBothNull initialState (by decide) rfl rfl rfl rfl,
   claim_C9.2 (fun _ => 5) (fun _ => 1) bothNullS apiBothNull rfl rfl rfl (by decide)⟩

/-- Counterexample to claim C9 as stated: with fp_tick_elapsed NULL and
all lines quiescent, a polling pass completes (no NULL capability is
invoked on the executed path), refuting that button_process calls
fp_tick_elapsed unconditionally for every configured line. -/
theorem claim_C9_cex :
    apiE.fp_tick_elapsed = none ∧ 0 < apiE.size_of_buttons ∧
    (button_process (fun _ => 5) (fun _ => 0) elapsedNullS).isSome = true :=
  ⟨rfl, by decide, rfl⟩

/-- Claim C5 (amended): the two capture paths treat Rising mode
differently.  In the poll path a line that reads pressed with first unset
gets the current tick written into first, with nothing else touched; when
that guard fails the capture step writes nothing.  In the interrupt path a
Rising-mode edge writes the current tick into last when last is unset,
leaving first untouched, and writes nothing when last is already set. -/
theorem claim_C5 :
    (∀ (api : ButtonApi) (ts : Nat → Nat) (reads : Nat → Int) (i : Nat)
        (cl : CaptureLine) (count record n : Nat),
      api.fp_read_button_present = true →
      api.fp_get_current_tick_present = true →
      (api.button_pins.getD i ⟨0, 0⟩).interrupt_mode = 1 →
      pressed_level api reads i = true →
      cl.first = 0 →
      process_line api ts reads i cl count record n =
        desicion_by_pressed_count api ts i ⟨ts n, cl.last⟩ count record (n + 1))
    ∧ (∀ (api : ButtonApi) (ts : Nat → Nat) (reads : Nat → Int) (i : Nat)
        (cl : CaptureLine) (count record n : Nat),
      api.fp_read_button_present = true →
      (api.button_pins.getD i ⟨0, 0⟩).interrupt_mode = 1 →
      ¬ (pressed_level api reads i = true ∧ cl.first = 0) →
      process_line api ts reads i cl count record n =
        desicion_by_pressed_count api ts i cl count record n)
    ∧ (∀ (pin : PinConfig) (t : Nat) (s : DriverState) (api : ButtonApi) (i : Nat),
      pin.interrupt_mode = 1 →
      s.button_init_status = true →
      s.p_api = some api →
      api.fp_get_current_tick_present = true →
      find_pin_id api pin.pin = (i : Nat) →
      ((s.pressed_tick.getD i ⟨0, 0⟩).last = 0 →
        button_isr (some pin) t s =
          some { s with pressed_tick :=
            s.pressed_tick.set i ⟨(s.pressed_tick.getD i ⟨0, 0⟩).first, t⟩ })
      ∧ ((s.pressed_tick.getD i ⟨0, 0⟩).last ≠ 0 →
        button_isr (some pin) t s = some s)) := by
  refine ⟨?_, ?_, ?_⟩
  · intro api ts reads i cl count record n hread hget hmode hpressed hfirst
    unfold process_line
    rw [if_pos hread]
    simp only [List.getD_eq_getElem?_getD] at hmode
    simp [capture_step, hmode, hpressed, hfirst, hget]
  · intro api ts reads i cl count record n hread hmode hguard
    unfold process_line
    rw [if_pos hread]
    simp only [List.getD_eq_getElem?_getD] at hmode
    simp [capture_step, hmode, hguard]
  · intro pin t s api i hmode hst hapi hget hfind
    have h1 : (((i : Nat) : Int) = -1) ↔ False := iff_false_intro (by omega)
    constructor
    · intro hlast
      simp only [List.getD_eq_getElem?_getD] at hlast
      simp [button_isr, isr_capture, hapi, hmode, hst, hfind, hget, hlast, h1]
    · intro hlast
      simp only [List.getD_eq_getElem?_getD] at hlast
      simp [button_isr, isr_capture, hapi, hmode, hst, hfind, hget, hlast, h1]

/-- Witness for claim C5 at a concrete input: a Rising-mode interrupt on
pin 3 at tick 777, with last unset, writes 777 into last and nothing into
first. -/
theorem claim_C5_witness :
    button_isr (some ⟨3, 1⟩) 777 risingS =
      some { risingS with pressed_tick :=
        risingS.pressed_tick.set 0 ⟨(risingS.pressed_tick.getD 0 ⟨0, 0⟩).first, 777⟩ } :=
  (claim_C5.2.2 ⟨3, 1⟩ 777 risingS apiR 0 rfl rfl rfl rfl (by decide)).1 rfl

/-- Counterexample to claim C5 as stated: in the interrupt path a
Rising-mode transition with both timestamps unset records the current
tick into last, not into first. -/
theorem claim_C5_cex :
    (button_isr (some ⟨3, 1⟩) 555 risingS).map (fun s => s.pressed_tick.getD 0 ⟨0, 0⟩) =
      some ⟨0, 555⟩ := by
  decide

/-- The all-zero capture line satisfies the line invariant. -/
theorem lineInv_zero : LineInv ⟨0, 0⟩ := fun h => absurd rfl h

/-- getD over a replicated list with its own element as default. -/
theorem getD_replicate_self {α : Type} (k i : Nat) (d : α) :
    (List.replicate k d).getD i d = d := by
  induction k generalizing i with
  | zero => rfl
  | succ k ih =>
    cases i with
    | zero => rfl
    | succ i => exact ih i

/-- An entry of a list after a set is either the written value or the
original entry at that position. -/
theorem getD_set_or {α : Type} (l : List α) (i j : Nat) (v d : α) :
    (l.set i v).getD j d = v ∨ (l.set i v).getD j d = l.getD j d := by
  induction l generalizing i j with
  | nil => right; rfl
  | cons a tl ih =>
    cases i with
    | zero =>
      cases j with
      | zero => left; rfl
      | succ j => right; rfl
    | succ i =>
      cases j with
      | zero => right; rfl
      | succ j => exact ih i j

/-- detect_the_press either leaves the capture line untouched or clears
both of its timestamps together. -/
theorem detect_line_cases (api : ButtonApi) (ts : Nat → Nat) (index : Nat)
    (cl : CaptureLine) (count : Nat) (n : Nat) (d : DetectResult)
    (h : detect_the_press api ts index cl count n = some d) :
    d.line = cl ∨ d.line = ⟨0, 0⟩ := by
  unfold detect_the_press at h
  split at h
  · split at h
    · split at h
      · split at h
        · split at h
          · cases h
            exact Or.inr rfl
          · cases h
        · split at h
          · cases h
            exact Or.inr rfl
          · cases h
            exact Or.inl rfl
      · cases h
        exact Or.inl rfl
    · cases h
  · cases h
    exact Or.inl rfl

/-- desicion_by_pressed_count either leaves the capture line untouched or
clears both of its timestamps together. -/
theorem decision_line_cases (api : ButtonApi) (ts : Nat → Nat) (index : Nat)
    (cl : CaptureLine) (count : Nat) (record : Nat) (n : Nat) (r : DecisionResult)
    (h : desicion_by_pressed_count api ts index cl count record n = some r) :
    r.line = cl ∨ r.line = ⟨0, 0⟩ := by
  obtain ⟨d, hd, h2⟩ := Option.bind_eq_some.mp h
  have hcases := detect_line_cases api ts index cl count n d hd
  have hline : r.line = d.line := by
    unfold desicion_commit at h2
    repeat' split at h2
    all_goals (cases h2 <;> rfl)
  rw [hline]
  exact hcases

/-- The capture step of button_process preserves the line invariant. -/
theorem capture_step_inv (api : ButtonApi) (ts : Nat → Nat) (i : Nat)
    (pressed : Bool) (cl : CaptureLine) (n : Nat) (p : CaptureLine × Nat)
    (hinv : LineInv cl) (h : capture_step api ts i pressed cl n = some p) :
    LineInv p.1 := by
  have hz : cl.first = 0 → cl.last = 0 := by
    intro h0
    by_contra hc
    exact hinv hc h0
  unfold capture_step at h
  split at h
  · -- rising mode
    split at h
    · split at h
      · rename_i hm hcond hget
        cases h
        intro hlast
        exact absurd (hz hcond.2) hlast
      · cases h
    · cases h
      exact hinv
  · split at h
    · -- falling mode
      split at h
      · split at h
        · rename_i hm1 hm2 hcond hget
          cases h
          intro _
          exact hcond.2
        · cases h
      · cases h
        exact hinv
    · split at h
      · -- both edges: untouched here
        cases h
        exact hinv
      · -- polling mode
        split at h
        · split at h
          · split at h
            · rename_i hfirst
              cases h
              intro hlast
              exact absurd (hz hfirst) hlast
            · rename_i hfirst
              cases h
              intro _
              exact hfirst
          · cases h
        · cases h
          exact hinv

/-- The capture step plus classification in a button_process iteration
preserves the line invariant. -/
theorem process_line_inv (api : ButtonApi) (ts : Nat → Nat) (reads : Nat → Int)
    (i : Nat) (cl : CaptureLine) (count : Nat) (record : Nat) (n : Nat)
    (r : DecisionResult) (hinv : LineInv cl)
    (h : process_line api ts reads i cl count record n = some r) :
    LineInv r.line := by
  unfold process_line at h
  split at h
  · obtain ⟨p, hcap, hdec⟩ := Option.bind_eq_some.mp h
    have h1 : LineInv p.1 :=
      capture_step_inv api ts i (pressed_level api reads i) cl n p hinv hcap
    rcases decision_line_cases api ts i p.1 count record p.2 r hdec with h2 | h2
    · rw [h2]
      exact h1
    · rw [h2]
      exact lineInv_zero
  · cases h

/-- The button_process loop preserves the per-line invariant over the
whole pressed_tick array. -/
theorem process_loop_inv (api : ButtonApi) (ts : Nat → Nat) (reads : Nat → Int) :
    ∀ (fuel i : Nat) (pt : List CaptureLine) (pc rec : List Nat) (n : Nat)
      (evs : ButtonEventLog)
      (out : List CaptureLine × List Nat × List Nat × Nat × ButtonEventLog),
      (∀ j, LineInv (pt.getD j ⟨0, 0⟩)) →
      process_loop api ts reads i fuel pt pc rec n evs = some out →
      ∀ j, LineInv (out.1.getD j ⟨0, 0⟩) := by
  intro fuel
  induction fuel with
  | zero =>
    intro i pt pc rec n evs out hinv h j
    cases h
    exact hinv j
  | succ fuel ih =>
    intro i pt pc rec n evs out hinv h j
    unfold process_loop at h
    split at h
    · cases h
    · rename_i r hr
      have hline := process_line_inv api ts reads i (pt.getD i ⟨0, 0⟩) (pc.getD i 0)
        (rec.getD i 0) n r (hinv i) hr
      have hinv2 : ∀ j2, LineInv ((pt.set i r.line).getD j2 ⟨0, 0⟩) := by
        intro j2
        rcases getD_set_or pt i j2 r.line ⟨0, 0⟩ with hh | hh
        · rw [hh]
          exact hline
        · rw [hh]
          exact hinv j2
      exact ih (i + 1) (pt.set i r.line) (pc.set i r.count) (rec.set i r.record)
        r.calls (evs ++ r.events) out hinv2 h j

/-- The switch of button_isr preserves the per-line invariant whenever
the triggering pin is not in Rising mode. -/
theorem isr_capture_inv (pin : PinConfig) (t : Nat) (api : ButtonApi)
    (s : DriverState) (i : Nat) (s1 : DriverState)
    (hmode : pin.interrupt_mode ≠ 1) (hinv : StateInv s)
    (h : isr_capture pin t api s i = some s1) : StateInv s1 := by
  have hz : (s.pressed_tick.getD i ⟨0, 0⟩).first = 0 →
      (s.pressed_tick.getD i ⟨0, 0⟩).last = 0 := by
    intro h0
    by_contra hc
    exact hinv i hc h0
  unfold isr_capture at h
  rw [if_neg hmode] at h
  split at h
  · -- falling mode
    split at h
    · split at h
      · rename_i hm hfirst hget
        cases h
        intro j hlast
        rcases getD_set_or s.pressed_tick i j
            ⟨t, (s.pressed_tick.getD i ⟨0, 0⟩).last⟩ ⟨0, 0⟩ with hh | hh
        · rw [hh] at hlast
          exact absurd (hz hfirst) hlast
        · rw [hh] at hlast ⊢
          exact hinv j hlast
      · cases h
    · cases h
      exact hinv
  · split at h
    · -- both edges
      split at h
      · split at h
        · rename_i hm1 hm2 hfirst hget
          cases h
          intro j hlast
          rcases getD_set_or s.pressed_tick i j
              ⟨t, (s.pressed_tick.getD i ⟨0, 0⟩).last⟩ ⟨0, 0⟩ with hh | hh
          · rw [hh] at hlast
            exact absurd (hz hfirst) hlast
          · rw [hh] at hlast ⊢
            exact hinv j hlast
        · cases h
      · split at h
        · rename_i hfirst hget
          cases h
          intro j hlast
          rcases getD_set_or s.pressed_tick i j
              ⟨(s.pressed_tick.getD i ⟨0, 0⟩).first, t⟩ ⟨0, 0⟩ with hh | hh
          · rw [hh]
            exact hfirst
          · rw [hh] at hlast ⊢
            exact hinv j hlast
        · cases h
    · -- other modes untouched
      cases h
      exact hinv

/-- Claim C6 (amended): the capture-line invariant (last set only when
first is set, both cleared together on resolution) is preserved by every
resolution step of the classifier, by every button_process call, and by
button_isr in every mode except Rising; the Rising-mode interrupt path
can set last while first is unset (see the counterexample). -/
theorem claim_C6 :
    (∀ (api : ButtonApi) (ts : Nat → Nat) (index : Nat) (cl : CaptureLine)
        (count n : Nat) (d : DetectResult),
      detect_the_press api ts index cl count n = some d →
      d.line = cl ∨ d.line = ⟨0, 0⟩)
    ∧ (∀ (pin : PinConfig) (t : Nat) (s s1 : DriverState),
        pin.interrupt_mode ≠ 1 → StateInv s →
        button_isr (some pin) t s = some s1 → StateInv s1)
    ∧ (∀ (ts : Nat → Nat) (reads : Nat → Int) (s : DriverState)
        (r : DriverState × ButtonEventLog),
        StateInv s → button_process ts reads s = some r → StateInv r.1) := by
  refine ⟨detect_line_cases, ?_, ?_⟩
  · intro pin t s s1 hmode hinv h
    simp only [button_isr] at h
    split at h
    · split at h
      · cases h
      · rename_i api hapi
        split at h
        · cases h
          exact hinv
        · exact isr_capture_inv pin t api s ((find_pin_id api pin.pin).toNat) s1
            hmode hinv h
    · cases h
      exact hinv
  · intro ts reads s r hinv h
    unfold button_process at h
    split at h
    · split at h
      · cases h
      · rename_i api hapi
        split at h
        · cases h
        · rename_i pt pc rec n1 evs hloop
          cases h
          exact process_loop_inv api ts reads api.size_of_buttons 0 s.pressed_tick
            s.press_count s.record_last_tick 0 [] (pt, pc, rec, n1, evs) hinv hloop
    · cases h
      exact hinv

/-- Witness for claim C6 at a concrete input: a quiescent polling pass on
the freshly initialized rising-mode driver keeps the per-line
invariant. -/
theorem claim_C6_witness :
    StateInv (((button_process (fun _ => 50) (fun _ => 0) risingS).getD
      (initialState, [])).1) :=
  claim_C6.2.2 (fun _ => 50) (fun _ => 0) risingS
    ((button_process (fun _ => 50) (fun _ => 0) risingS).getD (initialState, []))
    (by
      intro i
      rw [show risingS.pressed_tick = List.replicate 5 (⟨0, 0⟩ : CaptureLine) from rfl,
        getD_replicate_self]
      exact lineInv_zero)
    rfl

/-- Counterexample to claim C6 as stated: from the reachable initialized
state a single Rising-mode interrupt sets last to 555 while first stays
unset, violating the capture-line invariant. -/
theorem claim_C6_cex :
    (button_isr (some ⟨3, 1⟩) 555 risingS).map (fun s => s.pressed_tick.getD 0 ⟨0, 0⟩) =
      some ⟨0, 555⟩ ∧ ¬ LineInv ⟨0, 555⟩ := by
  constructor
  · decide
  · intro h
    exact h (by decide) rfl

end ButtonDriver
